import Mathlib

/-!
Shallow embedding of the sampling video frame source (`VideoReader`) from
`vision/frame-detector-video-demo/VideoDemo.cpp`, together with theorems
checking the specified properties of its construction, retry and sampling
logic.

Modelling conventions:
* `affdex::timestamp` (a signed 64-bit millisecond count) is modelled as
  `Int`; `unsigned int` values are modelled as `Nat` (so the C++
  comparison `sampling_frame_rate < 0` on an `unsigned int` is the
  always-false `Nat` comparison, exactly as in the source type), and
  expressions the source computes in `unsigned int` arithmetic carry an
  explicit reduction modulo `2^32` (the sentinel initialization of line
  31 and the conversion of a negative constructor argument).  The gate
  comparison of line 61 is a signed 64-bit comparison (`timestamp`
  minus `timestamp`, against the converted unsigned quotient), which at
  these magnitudes never overflows, so plain `Int` comparison is
  faithful there.
* The OpenCV `cv::VideoCapture` decoder is opaque third-party code; it is
  modelled as a state holding the current `CV_CAP_PROP_POS_MSEC` value and
  a list of future grab/retrieve attempt outcomes, one consumed per
  grab+retrieve pair.  Quantifying over all attempt lists quantifies over
  all decoder behaviours (success/failure patterns, arbitrary reported
  timestamps, repeated or zero timestamps).  When the list is exhausted,
  grab and retrieve report failure and the position is unchanged.
* Frame pixel buffers are irrelevant to every claim except frame identity,
  so a frame is an abstract tag (`Nat`).
-/

/-- Outcome of one decoder grab+retrieve attempt: whether `cap.grab()`
succeeded, whether `cap.retrieve(...)` succeeded, the value
`cap.get(CV_CAP_PROP_POS_MSEC)` reports after the attempt, and the frame
buffer tag. -/
structure Attempt where
  found : Bool
  retrieved : Bool
  pos : Int
  frame : Nat
deriving DecidableEq, Repr

/-- The decoder (`cv::VideoCapture`) state: current reported position in
milliseconds and the stream of future attempt outcomes. -/
structure Decoder where
  pos : Int
  attempts : List Attempt
deriving DecidableEq, Repr

/-- Result of `cap.grab(); cap.retrieve(bgr_frame); cap.get(POS_MSEC)`. -/
structure FetchResult where
  found : Bool
  retrieved : Bool
  ts : Int
  frame : Nat
deriving DecidableEq, Repr

/-- One grab+retrieve+get round against the decoder.  An exhausted decoder
fails both steps and leaves the reported position unchanged. -/
def grabRetrieve (d : Decoder) : FetchResult × Decoder :=
  match d.attempts with
  | [] => (⟨false, false, d.pos, 0⟩, d)
  | a :: rest => (⟨a.found, a.retrieved, a.pos, a.frame⟩, ⟨a.pos, rest⟩)

/-- `static const int MAX_ATTEMPTS = 2;` (VideoDemo.cpp line 69). -/
def MAX_ATTEMPTS : Nat := 2

/-- The retry loop of `VideoReader::GetFrameData` (lines 84-89):
`while (!(frame_found && frame_retrieved) && n_attempts++ < MAX_ATTEMPTS)`
re-running grab+retrieve+get.  Returns the final fetch result, the decoder
state, and the final value of `n_attempts` (the post-increment happens on
every evaluation of the bound check, exactly as in the source). -/
def retryLoop (r : FetchResult) (d : Decoder) (nAttempts : Nat) :
    FetchResult × Decoder × Nat :=
  if r.found = true ∧ r.retrieved = true then (r, d, nAttempts)
  else if h : nAttempts < MAX_ATTEMPTS then
    let gr := grabRetrieve d
    retryLoop gr.1 gr.2 (nAttempts + 1)
  else (r, d, nAttempts + 1)
termination_by MAX_ATTEMPTS - nAttempts
decreasing_by
  simp_wf
  omega

/-- Result of `VideoReader::GetFrameData` / `VideoReader::GetFrame`: the
returned `bool`, the by-reference `timestamp_ms` and frame outputs, and the
decoder state afterwards. -/
structure FrameData where
  loaded : Bool
  ts : Int
  frame : Nat
  dec : Decoder
deriving DecidableEq, Repr

/-- `VideoReader::GetFrameData` (lines 68-98): record the position before
the attempt, grab+retrieve once, retry on failure up to `MAX_ATTEMPTS`
extra times, and if a retry (`n_attempts > 0`) succeeded with a timestamp
not strictly greater than the pre-attempt position, report failure. -/
def GetFrameData (d : Decoder) : FrameData :=
  let prev_timestamp_ms := d.pos
  let gr := grabRetrieve d
  let rl := retryLoop gr.1 gr.2 0
  let r1 := rl.1
  let frame_found : Bool :=
    if r1.found = true ∧ r1.retrieved = true ∧ 0 < rl.2.2 ∧
        r1.ts ≤ prev_timestamp_ms then
      false
    else r1.found
  ⟨frame_found && r1.retrieved, r1.ts, r1.frame, rl.2.1⟩

/-- The `VideoReader` object state: `last_timestamp_ms` (`affdex::timestamp`,
signed) and `sampling_frame_rate` (`unsigned int`). -/
structure VideoReader where
  last_timestamp_ms : Int
  sampling_frame_rate : Nat
deriving DecidableEq, Repr

/-- The condition of the `do ... while` loop in `VideoReader::GetFrame`
(lines 59-62): keep pulling while sampling is enabled, the timestamp is
positive, the elapsed time since the last accepted timestamp is below the
minimum interval `1000 / sampling_frame_rate`, and the fetch succeeded. -/
def sampleSkip (rd : VideoReader) (fd : FrameData) : Prop :=
  0 < rd.sampling_frame_rate ∧ 0 < fd.ts ∧
    fd.ts - rd.last_timestamp_ms < 1000 / (rd.sampling_frame_rate : Int) ∧
    fd.loaded = true

instance instDecidableSampleSkip (rd : VideoReader) (fd : FrameData) :
    Decidable (sampleSkip rd fd) := by
  unfold sampleSkip
  infer_instance

/-- The `do { ... } while (...)` loop of `VideoReader::GetFrame`
(lines 57-62), with explicit fuel.  Each iteration whose condition holds
has `frame_data_loaded = true` and therefore consumes at least one decoder
attempt, so fuel `d.attempts.length + 1` (used by `GetFrame`) is enough to
never hit the fuel-exhaustion branch; `GetFrameLoop_not_skip` below proves
the loop always terminates through the condition check with that fuel. -/
def GetFrameLoop : Nat → VideoReader → Decoder → FrameData
  | 0, _, d => GetFrameData d
  | fuel + 1, rd, d =>
    let fd := GetFrameData d
    if sampleSkip rd fd then GetFrameLoop fuel rd fd.dec else fd

/-- `VideoReader::GetFrame` (lines 54-66): run the sampling loop, then
unconditionally set `last_timestamp_ms = timestamp_ms` and return
`frame_data_loaded` together with the frame outputs.  Returned as the
frame data plus the updated reader state. -/
def GetFrame (rd : VideoReader) (d : Decoder) : FrameData × VideoReader :=
  let fd := GetFrameLoop (d.attempts.length + 1) rd d
  (fd, ⟨fd.ts, rd.sampling_frame_rate⟩)

/-- The three `runtime_error` throws of the `VideoReader` constructor. -/
inductive VRError where
  | invalidArgument
  | unsupportedFormat (ext : String)
  | openFailure (path : String)
deriving DecidableEq, Repr

/-- The `SUPPORTED_EXTS` set of the constructor (lines 34-42); membership
is `boost::filesystem::path` equality, i.e. exact (case-sensitive) string
equality on the extension token. -/
def SUPPORTED_EXTS : List String :=
  [".avi", ".mov", ".flv", ".webm", ".wmv", ".mp4"]

/-- Line 31: `last_timestamp_ms = sampling_frame_rate == 0 ? -1 :
(0 - 1000 / sampling_frame_rate);`.  Because `sampling_frame_rate` is
`unsigned int`, the usual arithmetic conversions make the whole
conditional expression `unsigned int`: `1000 / sampling_frame_rate` is
unsigned, `0 - ...` wraps modulo `2^32`, and the `-1` branch converts to
`4294967295u`.  The resulting unsigned value is what gets stored into the
signed `last_timestamp_ms`, so the sentinel is `(-1) % 2^32 = 4294967295`
when the rate is 0 and `(0 - 1000 / rate) % 2^32 = 2^32 - 1000 / rate`
(or 0 when `1000 / rate = 0`) otherwise — hugely positive, not
negative. -/
def initLastTimestamp (sampling_frame_rate : Nat) : Int :=
  if sampling_frame_rate == 0 then (-1 : Int) % 2 ^ 32
  else (0 - 1000 / (sampling_frame_rate : Int)) % 2 ^ 32

/-- The `VideoReader` constructor (lines 25-52), in source order: the
(always-false, since `sampling_frame_rate` is `unsigned int`) negativity
guard, the sentinel initialization, the extension allow-list check, and
the decoder open.  The opaque `cap.open`/`cap.isOpened` outcome is the
`openOk` parameter; it is consulted only after the extension check, as in
the source. -/
def VideoReader.make (ext : String) (openOk : Bool)
    (sampling_frame_rate : Nat) : Except VRError VideoReader :=
  if sampling_frame_rate < 0 then .error .invalidArgument
  else
    let last := initLastTimestamp sampling_frame_rate
    if SUPPORTED_EXTS.contains ext = false then .error (.unsupportedFormat ext)
    else if openOk = false then .error (.openFailure ext)
    else .ok ⟨last, sampling_frame_rate⟩

/-- C++ conversion of a signed `int` argument to the `unsigned int`
constructor parameter: reduction modulo `2^32`. -/
def uintOfInt (i : Int) : Nat := (i % (2 : Int) ^ 32).toNat

/-- Division that signals division by zero instead of defaulting, used to
state that the source never divides by `sampling_frame_rate = 0`. -/
def checkedDiv (a b : Int) : Option Int :=
  if b = 0 then none else some (a / b)

/-- Line 31 with the division checked: the ternary evaluates
`1000 / sampling_frame_rate` only in the `sampling_frame_rate != 0`
branch (with the same unsigned wrap-around modulo `2^32` as
`initLastTimestamp`). -/
def initLastTimestampChecked (sampling_frame_rate : Nat) : Option Int :=
  if sampling_frame_rate == 0 then some ((-1 : Int) % 2 ^ 32)
  else (checkedDiv 1000 (sampling_frame_rate : Int)).map
    (fun q => (0 - q) % 2 ^ 32)

/-- Lines 59-62 with the division checked: `&&` short-circuits, so
`1000 / sampling_frame_rate` is evaluated only after
`sampling_frame_rate > 0` held. -/
def sampleSkipChecked (rd : VideoReader) (fd : FrameData) : Option Bool :=
  if 0 < rd.sampling_frame_rate then
    if 0 < fd.ts then
      (checkedDiv 1000 (rd.sampling_frame_rate : Int)).map
        (fun q => decide (fd.ts - rd.last_timestamp_ms < q) && fd.loaded)
    else some false
  else some false

/-! ## Helper lemmas -/

theorem grabRetrieve_length_le (d : Decoder) :
    (grabRetrieve d).2.attempts.length ≤ d.attempts.length := by
  obtain ⟨p, l⟩ := d
  cases l <;> simp [grabRetrieve]

theorem grabRetrieve_found_lt (d : Decoder)
    (h : (grabRetrieve d).1.found = true) :
    (grabRetrieve d).2.attempts.length < d.attempts.length := by
  obtain ⟨p, l⟩ := d
  cases l with
  | nil => simp [grabRetrieve] at h
  | cons a rest => simp [grabRetrieve]

theorem retryLoop_unfold_step (r : FetchResult) (d : Decoder) (n : Nat)
    (hs : ¬(r.found = true ∧ r.retrieved = true)) (hlt : n < MAX_ATTEMPTS) :
    retryLoop r d n = retryLoop (grabRetrieve d).1 (grabRetrieve d).2 (n + 1) := by
  rw [retryLoop, if_neg hs, dif_pos hlt]

theorem retryLoop_length_le (r : FetchResult) (d : Decoder) (n : Nat) :
    (retryLoop r d n).2.1.attempts.length ≤ d.attempts.length := by
  induction r, d, n using retryLoop.induct with
  | case1 r d n h =>
    rw [retryLoop, if_pos h]
  | case2 r d n h hlt gr ih =>
    have hgr : gr = grabRetrieve d := rfl
    rw [hgr] at ih
    rw [retryLoop_unfold_step r d n h hlt]
    exact le_trans ih (grabRetrieve_length_le d)
  | case3 r d n h hlt =>
    rw [retryLoop, if_neg h, dif_neg hlt]

theorem retryLoop_nAttempts_ge (r : FetchResult) (d : Decoder) (n : Nat) :
    n ≤ (retryLoop r d n).2.2 := by
  induction r, d, n using retryLoop.induct with
  | case1 r d n h => rw [retryLoop, if_pos h]
  | case2 r d n h hlt gr ih =>
    have hgr : gr = grabRetrieve d := rfl
    rw [hgr] at ih
    rw [retryLoop_unfold_step r d n h hlt]
    omega
  | case3 r d n h hlt =>
    rw [retryLoop, if_neg h, dif_neg hlt]
    show n ≤ n + 1
    omega

theorem retryLoop_fail_nAttempts_pos (r : FetchResult) (d : Decoder)
    (h : ¬(r.found = true ∧ r.retrieved = true)) :
    0 < (retryLoop r d 0).2.2 := by
  rw [retryLoop_unfold_step r d 0 h (by decide)]
  have := retryLoop_nAttempts_ge (grabRetrieve d).1 (grabRetrieve d).2 (0 + 1)
  omega

theorem retryLoop_succ (r : FetchResult) (d : Decoder) (n : Nat)
    (h : (retryLoop r d n).1.found = true ∧ (retryLoop r d n).1.retrieved = true) :
    (r.found = true ∧ r.retrieved = true ∧ retryLoop r d n = (r, d, n)) ∨
      (retryLoop r d n).2.1.attempts.length < d.attempts.length := by
  induction r, d, n using retryLoop.induct with
  | case1 r d n hs =>
    left
    exact ⟨hs.1, hs.2, by rw [retryLoop, if_pos hs]⟩
  | case2 r d n hs hlt gr ih =>
    have hgr : gr = grabRetrieve d := rfl
    rw [hgr] at ih
    rw [retryLoop_unfold_step r d n hs hlt] at h ⊢
    right
    rcases ih h with ⟨hfound, _, heq⟩ | hlen
    · rw [heq]
      exact grabRetrieve_found_lt d hfound
    · exact lt_of_lt_of_le hlen (grabRetrieve_length_le d)
  | case3 r d n hs hlt =>
    rw [retryLoop, if_neg hs, dif_neg hlt] at h
    exact absurd h hs

theorem GetFrameData_loaded_succ (d : Decoder)
    (h : (GetFrameData d).loaded = true) :
    (retryLoop (grabRetrieve d).1 (grabRetrieve d).2 0).1.found = true ∧
      (retryLoop (grabRetrieve d).1 (grabRetrieve d).2 0).1.retrieved = true := by
  unfold GetFrameData at h
  simp only [Bool.and_eq_true] at h
  refine ⟨?_, h.2⟩
  by_cases hc : (retryLoop (grabRetrieve d).1 (grabRetrieve d).2 0).1.found = true ∧
      (retryLoop (grabRetrieve d).1 (grabRetrieve d).2 0).1.retrieved = true ∧
      0 < (retryLoop (grabRetrieve d).1 (grabRetrieve d).2 0).2.2 ∧
      (retryLoop (grabRetrieve d).1 (grabRetrieve d).2 0).1.ts ≤ d.pos
  · rw [if_pos hc] at h
    exact absurd h.1 (by simp)
  · rw [if_neg hc] at h
    exact h.1

theorem GetFrameData_dec (d : Decoder) :
    (GetFrameData d).dec =
      (retryLoop (grabRetrieve d).1 (grabRetrieve d).2 0).2.1 := rfl

theorem GetFrameData_loaded_lt (d : Decoder)
    (h : (GetFrameData d).loaded = true) :
    (GetFrameData d).dec.attempts.length < d.attempts.length := by
  have hsucc := GetFrameData_loaded_succ d h
  rw [GetFrameData_dec]
  rcases retryLoop_succ (grabRetrieve d).1 (grabRetrieve d).2 0 hsucc with
    ⟨hfound, _, heq⟩ | hlen
  · rw [heq]
    exact grabRetrieve_found_lt d hfound
  · exact lt_of_lt_of_le hlen (grabRetrieve_length_le d)

theorem GetFrameLoop_not_skip :
    ∀ (fuel : Nat) (rd : VideoReader) (d : Decoder),
      d.attempts.length < fuel → ¬ sampleSkip rd (GetFrameLoop fuel rd d)
  | 0, _, d, hf => absurd hf (by omega)
  | fuel + 1, rd, d, hf => by
    show ¬ sampleSkip rd
      (if sampleSkip rd (GetFrameData d) then
        GetFrameLoop fuel rd (GetFrameData d).dec else GetFrameData d)
    by_cases h : sampleSkip rd (GetFrameData d)
    · rw [if_pos h]
      have hlt := GetFrameData_loaded_lt d h.2.2.2
      exact GetFrameLoop_not_skip fuel rd (GetFrameData d).dec (by omega)
    · rw [if_neg h]
      exact h

theorem GetFrame_not_skip (rd : VideoReader) (d : Decoder) :
    ¬ sampleSkip rd (GetFrame rd d).1 :=
  GetFrameLoop_not_skip (d.attempts.length + 1) rd d (by omega)

theorem GetFrame_accepted_spacing (rd : VideoReader) (d : Decoder)
    (hr : 0 < rd.sampling_frame_rate)
    (hl : (GetFrame rd d).1.loaded = true)
    (hts : 0 < (GetFrame rd d).1.ts) :
    1000 / (rd.sampling_frame_rate : Int) ≤
      (GetFrame rd d).1.ts - rd.last_timestamp_ms := by
  by_contra hcon
  exact GetFrame_not_skip rd d ⟨hr, hts, lt_of_not_le hcon, hl⟩

theorem grabRetrieve_cons (p : Int) (a : Attempt) (rest : List Attempt) :
    grabRetrieve ⟨p, a :: rest⟩ =
      (⟨a.found, a.retrieved, a.pos, a.frame⟩, ⟨a.pos, rest⟩) := rfl

theorem grabRetrieve_nil (p : Int) :
    grabRetrieve ⟨p, []⟩ = (⟨false, false, p, 0⟩, ⟨p, []⟩) := rfl

theorem retryLoop_exit_succ (r : FetchResult) (d : Decoder) (n : Nat)
    (hs : r.found = true ∧ r.retrieved = true) :
    retryLoop r d n = (r, d, n) := by
  rw [retryLoop, if_pos hs]

theorem retryLoop_exit_bound (r : FetchResult) (d : Decoder) (n : Nat)
    (hs : ¬(r.found = true ∧ r.retrieved = true)) (hn : ¬ n < MAX_ATTEMPTS) :
    retryLoop r d n = (r, d, n + 1) := by
  rw [retryLoop, if_neg hs, dif_neg hn]

theorem grabRetrieve_all_fail (d : Decoder)
    (h : ∀ a ∈ d.attempts, ¬(a.found = true ∧ a.retrieved = true)) :
    ¬((grabRetrieve d).1.found = true ∧ (grabRetrieve d).1.retrieved = true) ∧
      (∀ a ∈ (grabRetrieve d).2.attempts,
        ¬(a.found = true ∧ a.retrieved = true)) := by
  obtain ⟨p, l⟩ := d
  cases l with
  | nil => simp [grabRetrieve]
  | cons a rest =>
    rw [grabRetrieve_cons]
    refine ⟨?_, fun b hb => h b (List.mem_cons_of_mem a hb)⟩
    exact h a (List.mem_cons_self a rest)

theorem retryLoop_all_fail (r : FetchResult) (d : Decoder) (n : Nat)
    (hr : ¬(r.found = true ∧ r.retrieved = true))
    (hd : ∀ a ∈ d.attempts, ¬(a.found = true ∧ a.retrieved = true)) :
    ¬((retryLoop r d n).1.found = true ∧ (retryLoop r d n).1.retrieved = true) ∧
      (∀ a ∈ (retryLoop r d n).2.1.attempts,
        ¬(a.found = true ∧ a.retrieved = true)) := by
  induction r, d, n using retryLoop.induct with
  | case1 r d n hs => exact absurd hs hr
  | case2 r d n hs hlt gr ih =>
    have hgr : gr = grabRetrieve d := rfl
    rw [hgr] at ih
    rw [retryLoop_unfold_step r d n hs hlt]
    have hgf := grabRetrieve_all_fail d hd
    exact ih hgf.1 hgf.2
  | case3 r d n hs hlt =>
    rw [retryLoop_exit_bound r d n hs hlt]
    exact ⟨hs, hd⟩

theorem GetFrameData_all_fail (d : Decoder)
    (h : ∀ a ∈ d.attempts, ¬(a.found = true ∧ a.retrieved = true)) :
    (GetFrameData d).loaded = false ∧
      (∀ a ∈ (GetFrameData d).dec.attempts,
        ¬(a.found = true ∧ a.retrieved = true)) := by
  have hgf := grabRetrieve_all_fail d h
  have hrl := retryLoop_all_fail (grabRetrieve d).1 (grabRetrieve d).2 0 hgf.1 hgf.2
  constructor
  · by_contra hl
    rw [Bool.not_eq_false] at hl
    exact hrl.1 (GetFrameData_loaded_succ d hl)
  · rw [GetFrameData_dec]
    exact hrl.2

theorem GetFrameLoop_of_not_skip (fuel : Nat) (rd : VideoReader) (d : Decoder)
    (h : ¬ sampleSkip rd (GetFrameData d)) :
    GetFrameLoop (fuel + 1) rd d = GetFrameData d := by
  show (if sampleSkip rd (GetFrameData d) then
    GetFrameLoop fuel rd (GetFrameData d).dec else GetFrameData d) = GetFrameData d
  rw [if_neg h]

theorem GetFrame_of_not_skip (rd : VideoReader) (d : Decoder)
    (h : ¬ sampleSkip rd (GetFrameData d)) :
    GetFrame rd d = (GetFrameData d, ⟨(GetFrameData d).ts, rd.sampling_frame_rate⟩) := by
  unfold GetFrame
  rw [GetFrameLoop_of_not_skip d.attempts.length rd d h]

theorem GetFrameData_not_loaded_not_skip (rd : VideoReader) (d : Decoder)
    (h : (GetFrameData d).loaded = false) :
    ¬ sampleSkip rd (GetFrameData d) := by
  intro hs
  rw [hs.2.2.2] at h
  exact absurd h (by simp)

/-! ## Claim theorems -/

/-- C5 (code bug): the constructor's negativity guard
`if (sampling_frame_rate < 0)` compares an `unsigned int` and is therefore
always false.  Passing the C++ literal `-1` converts to `4294967295`, and
construction succeeds (with a supported extension and a decoder that
opens) instead of failing with the invalid-argument error: the reader is
built with sentinel `0 - 1000 / 4294967295 = 0` and rate `4294967295`. -/
theorem C5_negative_rate_not_rejected :
    uintOfInt (-1) = 4294967295 ∧
      VideoReader.make ".mp4" true (uintOfInt (-1)) =
        .ok ⟨0, 4294967295⟩ := by
  constructor
  · decide
  · rfl

/-- C7: for every extension outside the (case-sensitively matched)
allow-list `{.avi, .mov, .flv, .webm, .wmv, .mp4}`, construction fails
with the unsupported-format error for every decoder-open outcome, i.e.
before and independently of any decoder open attempt. -/
theorem C7_unsupported_extension (ext : String) (r : Nat)
    (h : SUPPORTED_EXTS.contains ext = false) :
    ∀ openOk : Bool,
      VideoReader.make ext openOk r = .error (.unsupportedFormat ext) := by
  intro openOk
  unfold VideoReader.make
  rw [if_neg (by omega : ¬ r < 0), if_pos h]

/-- C7 witness: `.txt` is not in the allow-list and construction with it
fails with the unsupported-format error. -/
theorem C7_witness :
    SUPPORTED_EXTS.contains ".txt" = false ∧
      VideoReader.make ".txt" true 0 =
        .error (.unsupportedFormat ".txt") :=
  ⟨by decide, C7_unsupported_extension ".txt" 0 (by decide) true⟩

/-- C10: both divisions by `sampling_frame_rate` — the sentinel
initialization (guarded by the ternary's `sampling_frame_rate == 0`
branch) and the sampling-gate interval computation (guarded by the
short-circuiting `sampling_frame_rate > 0` conjunct) — are evaluated only
when the rate is nonzero: the checked-division versions of line 31 and of
the loop condition of lines 59-62 never signal division by zero and agree
with the embedded definitions, for every rate including 0. -/
theorem C10_no_division_by_zero (r : Nat) (rd : VideoReader) (fd : FrameData) :
    initLastTimestampChecked r = some (initLastTimestamp r) ∧
      sampleSkipChecked rd fd = some (decide (sampleSkip rd fd)) := by
  constructor
  · unfold initLastTimestampChecked initLastTimestamp checkedDiv
    by_cases h : r = 0
    · simp [h]
    · have h2 : (r : Int) ≠ 0 := by exact_mod_cast h
      simp [h, h2]
  · unfold sampleSkipChecked sampleSkip checkedDiv
    by_cases h1 : 0 < rd.sampling_frame_rate
    · have h2 : (rd.sampling_frame_rate : Int) ≠ 0 := by
        simp
        omega
      by_cases h3 : 0 < fd.ts
      · simp [h1, h2, h3, Bool.decide_and]
      · simp [h1, h3]
    · simp [h1]

/-- C6: with sampling rate 0 the gate is disabled: `GetFrame` performs a
single raw fetch and returns its outcome unchanged — every frame the
fetch successfully decodes is returned to the caller, and no frame is
discarded by the sampling loop. -/
theorem C6_rate_zero_no_gating (rd : VideoReader) (d : Decoder)
    (h : rd.sampling_frame_rate = 0) :
    GetFrame rd d = (GetFrameData d, ⟨(GetFrameData d).ts, rd.sampling_frame_rate⟩) := by
  apply GetFrame_of_not_skip
  intro hs
  have h1 := hs.1
  omega

/-- C6 witness: with rate 0, a decoded frame (tag 7, timestamp 5) is
returned unchanged by `GetFrame`. -/
theorem C6_witness :
    (⟨-1, 0⟩ : VideoReader).sampling_frame_rate = 0 ∧
      GetFrame ⟨-1, 0⟩ ⟨0, [⟨true, true, 5, 7⟩]⟩ =
        (GetFrameData ⟨0, [⟨true, true, 5, 7⟩]⟩,
          ⟨(GetFrameData ⟨0, [⟨true, true, 5, 7⟩]⟩).ts, 0⟩) :=
  ⟨rfl, C6_rate_zero_no_gating ⟨-1, 0⟩ ⟨0, [⟨true, true, 5, 7⟩]⟩ rfl⟩

/-- C4 (code bug): line 31 computes the sentinel in `unsigned int`
arithmetic, so a fresh construction stores `4294967295` (rate 0) or
`2^32 - 1000 / rate` (rate > 0) into `last_timestamp_ms` — not `-1` /
`-(1000 / rate)`.  With sampling enabled the hugely positive sentinel
makes every positive-timestamp frame satisfy the gate's elapsed-time
test, so the very first successfully decoded frame (here timestamp 40 at
rate 10) is discarded and the pull reports exhaustion, contradicting the
source's own comment on line 31 ("Initialize so that with sampling, we
always process the first frame"). -/
theorem C4_sentinel_unsigned_wraparound :
    initLastTimestamp 0 = 4294967295 ∧
    initLastTimestamp 10 = 4294967196 ∧
    VideoReader.make ".mp4" true 10 = .ok ⟨4294967196, 10⟩ ∧
    (GetFrameData ⟨0, [⟨true, true, 40, 0⟩]⟩).loaded = true ∧
    (GetFrameData ⟨0, [⟨true, true, 40, 0⟩]⟩).ts = 40 ∧
    (GetFrame ⟨4294967196, 10⟩ ⟨0, [⟨true, true, 40, 0⟩]⟩).1.loaded = false := by
  refine ⟨by decide, by decide, rfl, ?_, ?_, ?_⟩ <;>
    simp [GetFrame, GetFrameLoop, GetFrameData, retryLoop, grabRetrieve,
      sampleSkip, MAX_ATTEMPTS]

/-- C3: when the first grab+retrieve attempt fails and a bounded retry
then succeeds but with a timestamp not strictly greater than the position
recorded immediately before the original failed attempt, `GetFrameData`
reports failure and the enclosing `GetFrame` pull reports the stream as
exhausted instead of returning the frame. -/
theorem C3_retry_nonmonotonic_rejected (rd : VideoReader) (d : Decoder)
    (hfail : ¬((grabRetrieve d).1.found = true ∧
      (grabRetrieve d).1.retrieved = true))
    (hfound : (retryLoop (grabRetrieve d).1 (grabRetrieve d).2 0).1.found = true)
    (hretr :
      (retryLoop (grabRetrieve d).1 (grabRetrieve d).2 0).1.retrieved = true)
    (hts : (retryLoop (grabRetrieve d).1 (grabRetrieve d).2 0).1.ts ≤ d.pos) :
    (GetFrameData d).loaded = false ∧ (GetFrame rd d).1.loaded = false := by
  have hn := retryLoop_fail_nAttempts_pos (grabRetrieve d).1 (grabRetrieve d).2 hfail
  have hload : (GetFrameData d).loaded = false := by
    simp only [GetFrameData]
    rw [if_pos ⟨hfound, hretr, hn, hts⟩]
    simp
  refine ⟨hload, ?_⟩
  rw [GetFrame_of_not_skip rd d (GetFrameData_not_loaded_not_skip rd d hload)]
  exact hload

/-- C3 witness: decoder at position 10 whose first attempt fails and whose
retry succeeds with timestamp 10 (equal to the pre-failure position): the
frame is rejected and the pull reports exhaustion. -/
theorem C3_witness :
    ¬((grabRetrieve ⟨10, [⟨false, true, 10, 0⟩, ⟨true, true, 10, 1⟩]⟩).1.found = true ∧
      (grabRetrieve ⟨10, [⟨false, true, 10, 0⟩, ⟨true, true, 10, 1⟩]⟩).1.retrieved = true) ∧
    (GetFrameData ⟨10, [⟨false, true, 10, 0⟩, ⟨true, true, 10, 1⟩]⟩).loaded = false ∧
    (GetFrame ⟨-1, 0⟩ ⟨10, [⟨false, true, 10, 0⟩, ⟨true, true, 10, 1⟩]⟩).1.loaded = false := by
  have hfail : ¬((grabRetrieve ⟨10, [⟨false, true, 10, 0⟩, ⟨true, true, 10, 1⟩]⟩).1.found = true ∧
      (grabRetrieve ⟨10, [⟨false, true, 10, 0⟩, ⟨true, true, 10, 1⟩]⟩).1.retrieved = true) := by
    simp [grabRetrieve]
  have hfound : (retryLoop (grabRetrieve ⟨10, [⟨false, true, 10, 0⟩, ⟨true, true, 10, 1⟩]⟩).1
      (grabRetrieve ⟨10, [⟨false, true, 10, 0⟩, ⟨true, true, 10, 1⟩]⟩).2 0).1.found = true := by
    simp [grabRetrieve, retryLoop, MAX_ATTEMPTS]
  have hretr : (retryLoop (grabRetrieve ⟨10, [⟨false, true, 10, 0⟩, ⟨true, true, 10, 1⟩]⟩).1
      (grabRetrieve ⟨10, [⟨false, true, 10, 0⟩, ⟨true, true, 10, 1⟩]⟩).2 0).1.retrieved = true := by
    simp [grabRetrieve, retryLoop, MAX_ATTEMPTS]
  have hts : (retryLoop (grabRetrieve ⟨10, [⟨false, true, 10, 0⟩, ⟨true, true, 10, 1⟩]⟩).1
      (grabRetrieve ⟨10, [⟨false, true, 10, 0⟩, ⟨true, true, 10, 1⟩]⟩).2 0).1.ts ≤
      (⟨10, [⟨false, true, 10, 0⟩, ⟨true, true, 10, 1⟩]⟩ : Decoder).pos := by
    simp [grabRetrieve, retryLoop, MAX_ATTEMPTS]
  have hmain := C3_retry_nonmonotonic_rejected ⟨-1, 0⟩
    ⟨10, [⟨false, true, 10, 0⟩, ⟨true, true, 10, 1⟩]⟩ hfail hfound hretr hts
  exact ⟨hfail, hmain.1, hmain.2⟩

/-- C8: the retry bound is exactly `MAX_ATTEMPTS = 2` additional attempts
after the original failed one: when the first `MAX_ATTEMPTS + 1 = 3`
attempt outcomes are failures, `GetFrameData` returns `false` (no error is
raised — the function is total and returns a plain flag) and has consumed
exactly three attempts from the decoder. -/
theorem C8_retry_bound (d : Decoder)
    (hfail : ∀ a ∈ d.attempts.take (MAX_ATTEMPTS + 1),
      ¬(a.found = true ∧ a.retrieved = true)) :
    (GetFrameData d).loaded = false ∧
      (GetFrameData d).dec.attempts = d.attempts.drop (MAX_ATTEMPTS + 1) := by
  obtain ⟨p, l⟩ := d
  rcases l with _ | ⟨a, _ | ⟨b, _ | ⟨c, rest⟩⟩⟩
  · constructor <;>
      simp [GetFrameData, retryLoop, grabRetrieve, MAX_ATTEMPTS]
  · have ha := hfail a (by simp [MAX_ATTEMPTS])
    constructor <;>
      simp [GetFrameData, retryLoop, grabRetrieve, MAX_ATTEMPTS, ha]
  · have ha := hfail a (by simp [MAX_ATTEMPTS])
    have hb := hfail b (by simp [MAX_ATTEMPTS])
    constructor <;>
      simp [GetFrameData, retryLoop, grabRetrieve, MAX_ATTEMPTS, ha, hb]
  · have ha := hfail a (by simp [MAX_ATTEMPTS])
    have hb := hfail b (by simp [MAX_ATTEMPTS])
    have hc := hfail c (by simp [MAX_ATTEMPTS])
    constructor
    · simp [GetFrameData, retryLoop, grabRetrieve, MAX_ATTEMPTS, ha, hb, hc]
      intro _ h2
      rcases Bool.eq_false_or_eq_true c.retrieved with hr | hr
      · exact absurd ⟨h2, hr⟩ hc
      · exact hr
    · simp [GetFrameData, retryLoop, grabRetrieve, MAX_ATTEMPTS, ha, hb, hc]

/-- C8 witness: four failing attempts: the fetch fails and exactly the
first three attempts are consumed. -/
theorem C8_witness :
    (∀ a ∈ (⟨0, [⟨false, true, 1, 0⟩, ⟨true, false, 2, 1⟩, ⟨false, false, 3, 2⟩,
        ⟨false, true, 4, 3⟩]⟩ : Decoder).attempts.take (MAX_ATTEMPTS + 1),
      ¬(a.found = true ∧ a.retrieved = true)) ∧
    (GetFrameData ⟨0, [⟨false, true, 1, 0⟩, ⟨true, false, 2, 1⟩,
      ⟨false, false, 3, 2⟩, ⟨false, true, 4, 3⟩]⟩).loaded = false ∧
    (GetFrameData ⟨0, [⟨false, true, 1, 0⟩, ⟨true, false, 2, 1⟩,
        ⟨false, false, 3, 2⟩, ⟨false, true, 4, 3⟩]⟩).dec.attempts =
      (⟨0, [⟨false, true, 1, 0⟩, ⟨true, false, 2, 1⟩, ⟨false, false, 3, 2⟩,
        ⟨false, true, 4, 3⟩]⟩ : Decoder).attempts.drop (MAX_ATTEMPTS + 1) := by
  have hfail : ∀ a ∈ (⟨0, [⟨false, true, 1, 0⟩, ⟨true, false, 2, 1⟩,
      ⟨false, false, 3, 2⟩, ⟨false, true, 4, 3⟩]⟩ : Decoder).attempts.take
        (MAX_ATTEMPTS + 1),
      ¬(a.found = true ∧ a.retrieved = true) := by decide
  have hmain := C8_retry_bound ⟨0, [⟨false, true, 1, 0⟩, ⟨true, false, 2, 1⟩,
    ⟨false, false, 3, 2⟩, ⟨false, true, 4, 3⟩]⟩ hfail
  exact ⟨hfail, hmain.1, hmain.2⟩

/-- C9: against a decoder that fails definitively (every remaining
grab/retrieve attempt fails), `GetFrame` returns the exhausted result
(`false`) — one such result per call, raising no error (the embedding is a
total function with no error outcome) — and the resulting decoder state
again has only failing attempts, so every subsequent call returns the
exhausted result as well. -/
theorem C9_exhausted_after_failures (rd : VideoReader) (d : Decoder)
    (h : ∀ a ∈ d.attempts, ¬(a.found = true ∧ a.retrieved = true)) :
    (GetFrame rd d).1.loaded = false ∧
      (∀ a ∈ (GetFrame rd d).1.dec.attempts,
        ¬(a.found = true ∧ a.retrieved = true)) := by
  have hgfd := GetFrameData_all_fail d h
  rw [GetFrame_of_not_skip rd d (GetFrameData_not_loaded_not_skip rd d hgfd.1)]
  exact ⟨hgfd.1, hgfd.2⟩

/-- C9 witness: a decoder with only failing attempts left: the pull
reports exhaustion and the remaining attempts are again all failing. -/
theorem C9_witness :
    (∀ a ∈ (⟨0, [⟨false, true, 1, 0⟩, ⟨true, false, 2, 1⟩, ⟨false, false, 3, 2⟩,
        ⟨false, true, 4, 3⟩]⟩ : Decoder).attempts,
      ¬(a.found = true ∧ a.retrieved = true)) ∧
    (GetFrame ⟨-1, 0⟩ ⟨0, [⟨false, true, 1, 0⟩, ⟨true, false, 2, 1⟩,
      ⟨false, false, 3, 2⟩, ⟨false, true, 4, 3⟩]⟩).1.loaded = false ∧
    (∀ a ∈ (GetFrame ⟨-1, 0⟩ ⟨0, [⟨false, true, 1, 0⟩, ⟨true, false, 2, 1⟩,
        ⟨false, false, 3, 2⟩, ⟨false, true, 4, 3⟩]⟩).1.dec.attempts,
      ¬(a.found = true ∧ a.retrieved = true)) := by
  have h : ∀ a ∈ (⟨0, [⟨false, true, 1, 0⟩, ⟨true, false, 2, 1⟩,
      ⟨false, false, 3, 2⟩, ⟨false, true, 4, 3⟩]⟩ : Decoder).attempts,
      ¬(a.found = true ∧ a.retrieved = true) := by decide
  have hmain := C9_exhausted_after_failures ⟨-1, 0⟩ ⟨0, [⟨false, true, 1, 0⟩,
    ⟨true, false, 2, 1⟩, ⟨false, false, 3, 2⟩, ⟨false, true, 4, 3⟩]⟩ h
  exact ⟨h, hmain.1, hmain.2⟩

/-- C1 counterexample: with sampling disabled (rate 0, a legal
construction whose stored sentinel is the wrapped `4294967295`, never
read at rate 0) and a decoder whose first grab/retrieve attempts succeed
with a repeated timestamp 5, two consecutive pulls both accept a frame
with timestamp 5: the second accepted frame's timestamp is not strictly
greater than the first's, refuting the claimed invariant for every
decoder behaviour. -/
theorem C1_counterexample :
    VideoReader.make ".mp4" true 0 = .ok ⟨4294967295, 0⟩ ∧
    (GetFrame ⟨4294967295, 0⟩ ⟨0, [⟨true, true, 5, 0⟩,
      ⟨true, true, 5, 1⟩]⟩).1.loaded = true ∧
    (GetFrame ⟨4294967295, 0⟩ ⟨0, [⟨true, true, 5, 0⟩,
      ⟨true, true, 5, 1⟩]⟩).1.ts = 5 ∧
    (GetFrame (GetFrame ⟨4294967295, 0⟩ ⟨0, [⟨true, true, 5, 0⟩,
        ⟨true, true, 5, 1⟩]⟩).2
      (GetFrame ⟨4294967295, 0⟩ ⟨0, [⟨true, true, 5, 0⟩,
        ⟨true, true, 5, 1⟩]⟩).1.dec).1.loaded = true ∧
    (GetFrame (GetFrame ⟨4294967295, 0⟩ ⟨0, [⟨true, true, 5, 0⟩,
        ⟨true, true, 5, 1⟩]⟩).2
      (GetFrame ⟨4294967295, 0⟩ ⟨0, [⟨true, true, 5, 0⟩,
        ⟨true, true, 5, 1⟩]⟩).1.dec).1.ts = 5 ∧
    ¬((GetFrame ⟨4294967295, 0⟩ ⟨0, [⟨true, true, 5, 0⟩,
        ⟨true, true, 5, 1⟩]⟩).1.ts <
      (GetFrame (GetFrame ⟨4294967295, 0⟩ ⟨0, [⟨true, true, 5, 0⟩,
          ⟨true, true, 5, 1⟩]⟩).2
        (GetFrame ⟨4294967295, 0⟩ ⟨0, [⟨true, true, 5, 0⟩,
          ⟨true, true, 5, 1⟩]⟩).1.dec).1.ts) := by
  refine ⟨rfl, ?_, ?_, ?_, ?_, ?_⟩ <;>
    simp [GetFrame, GetFrameLoop, GetFrameData, retryLoop, grabRetrieve,
      sampleSkip, MAX_ATTEMPTS]

/-- C1 amended: two consecutive accepted frames have strictly increasing
timestamps provided sampling is enabled with rate at most 1000 (so the
minimum spacing `1000 / rate` is at least one millisecond) and the second
frame's timestamp is positive; without those conditions a first-attempt
success with a repeated or zero timestamp bypasses both the retry
monotonicity check and the sampling gate. -/
theorem C1_amended_strict_monotonicity (rd : VideoReader) (d : Decoder)
    (hr : 0 < rd.sampling_frame_rate) (hr2 : rd.sampling_frame_rate ≤ 1000)
    (_h1 : (GetFrame rd d).1.loaded = true)
    (h2 : (GetFrame (GetFrame rd d).2 (GetFrame rd d).1.dec).1.loaded = true)
    (hpos : 0 < (GetFrame (GetFrame rd d).2 (GetFrame rd d).1.dec).1.ts) :
    (GetFrame rd d).1.ts <
      (GetFrame (GetFrame rd d).2 (GetFrame rd d).1.dec).1.ts := by
  have hrate : (GetFrame rd d).2.sampling_frame_rate = rd.sampling_frame_rate :=
    rfl
  have hlast : (GetFrame rd d).2.last_timestamp_ms = (GetFrame rd d).1.ts := rfl
  have hspace := GetFrame_accepted_spacing (GetFrame rd d).2
    (GetFrame rd d).1.dec (by rw [hrate]; exact hr) h2 hpos
  rw [hrate, hlast] at hspace
  have hq : (1 : Int) ≤ 1000 / (rd.sampling_frame_rate : Int) := by
    exact_mod_cast (Nat.one_le_div_iff hr).mpr hr2
  have := hq.trans hspace
  omega

/-- C1 amended witness: rate 10 from the reachable reader state with
last accepted timestamp 0, accepting timestamps 100 then 250. -/
theorem C1_amended_witness :
    0 < (⟨0, 10⟩ : VideoReader).sampling_frame_rate ∧
    (⟨0, 10⟩ : VideoReader).sampling_frame_rate ≤ 1000 ∧
    (GetFrame ⟨0, 10⟩ ⟨0, [⟨true, true, 100, 0⟩,
      ⟨true, true, 250, 1⟩]⟩).1.loaded = true ∧
    (GetFrame (GetFrame ⟨0, 10⟩ ⟨0, [⟨true, true, 100, 0⟩,
        ⟨true, true, 250, 1⟩]⟩).2
      (GetFrame ⟨0, 10⟩ ⟨0, [⟨true, true, 100, 0⟩,
        ⟨true, true, 250, 1⟩]⟩).1.dec).1.loaded = true ∧
    0 < (GetFrame (GetFrame ⟨0, 10⟩ ⟨0, [⟨true, true, 100, 0⟩,
        ⟨true, true, 250, 1⟩]⟩).2
      (GetFrame ⟨0, 10⟩ ⟨0, [⟨true, true, 100, 0⟩,
        ⟨true, true, 250, 1⟩]⟩).1.dec).1.ts ∧
    (GetFrame ⟨0, 10⟩ ⟨0, [⟨true, true, 100, 0⟩,
      ⟨true, true, 250, 1⟩]⟩).1.ts <
      (GetFrame (GetFrame ⟨0, 10⟩ ⟨0, [⟨true, true, 100, 0⟩,
          ⟨true, true, 250, 1⟩]⟩).2
        (GetFrame ⟨0, 10⟩ ⟨0, [⟨true, true, 100, 0⟩,
          ⟨true, true, 250, 1⟩]⟩).1.dec).1.ts := by
  have h1 : (GetFrame ⟨0, 10⟩ ⟨0, [⟨true, true, 100, 0⟩,
      ⟨true, true, 250, 1⟩]⟩).1.loaded = true := by
    simp [GetFrame, GetFrameLoop, GetFrameData, retryLoop, grabRetrieve,
      sampleSkip, MAX_ATTEMPTS]
  have h2 : (GetFrame (GetFrame ⟨0, 10⟩ ⟨0, [⟨true, true, 100, 0⟩,
      ⟨true, true, 250, 1⟩]⟩).2
      (GetFrame ⟨0, 10⟩ ⟨0, [⟨true, true, 100, 0⟩,
        ⟨true, true, 250, 1⟩]⟩).1.dec).1.loaded = true := by
    simp [GetFrame, GetFrameLoop, GetFrameData, retryLoop, grabRetrieve,
      sampleSkip, MAX_ATTEMPTS]
  have hpos : 0 < (GetFrame (GetFrame ⟨0, 10⟩ ⟨0, [⟨true, true, 100, 0⟩,
      ⟨true, true, 250, 1⟩]⟩).2
      (GetFrame ⟨0, 10⟩ ⟨0, [⟨true, true, 100, 0⟩,
        ⟨true, true, 250, 1⟩]⟩).1.dec).1.ts := by
    simp [GetFrame, GetFrameLoop, GetFrameData, retryLoop, grabRetrieve,
      sampleSkip, MAX_ATTEMPTS]
  exact ⟨by decide, by decide, h1, h2, hpos,
    C1_amended_strict_monotonicity ⟨0, 10⟩
      ⟨0, [⟨true, true, 100, 0⟩, ⟨true, true, 250, 1⟩]⟩ (by decide) (by decide)
      h1 h2 hpos⟩

/-- C2 counterexample: rate 10 (minimum spacing 100 ms, stored sentinel
`2^32 - 100` as the constructor really computes) against a decoder that
reports timestamp 0 on two consecutive first-attempt successes — the
end-of-stream symptom the source's own comment describes.  Both frames
are returned by consecutive `GetFrame` calls (the gate's
`timestamp_ms > 0` conjunct lets zero-timestamp frames through), and
their timestamp difference 0 is below `1000 / 10`, refuting the claimed
spacing for every decoder behaviour. -/
theorem C2_counterexample :
    VideoReader.make ".mp4" true 10 = .ok ⟨4294967196, 10⟩ ∧
    (GetFrame ⟨4294967196, 10⟩ ⟨0, [⟨true, true, 0, 0⟩,
      ⟨true, true, 0, 1⟩]⟩).1.loaded = true ∧
    (GetFrame ⟨4294967196, 10⟩ ⟨0, [⟨true, true, 0, 0⟩,
      ⟨true, true, 0, 1⟩]⟩).1.ts = 0 ∧
    (GetFrame (GetFrame ⟨4294967196, 10⟩ ⟨0, [⟨true, true, 0, 0⟩,
        ⟨true, true, 0, 1⟩]⟩).2
      (GetFrame ⟨4294967196, 10⟩ ⟨0, [⟨true, true, 0, 0⟩,
        ⟨true, true, 0, 1⟩]⟩).1.dec).1.loaded = true ∧
    (GetFrame (GetFrame ⟨4294967196, 10⟩ ⟨0, [⟨true, true, 0, 0⟩,
        ⟨true, true, 0, 1⟩]⟩).2
      (GetFrame ⟨4294967196, 10⟩ ⟨0, [⟨true, true, 0, 0⟩,
        ⟨true, true, 0, 1⟩]⟩).1.dec).1.ts = 0 ∧
    ¬(1000 / ((10 : Nat) : Int) ≤
      (GetFrame (GetFrame ⟨4294967196, 10⟩ ⟨0, [⟨true, true, 0, 0⟩,
          ⟨true, true, 0, 1⟩]⟩).2
        (GetFrame ⟨4294967196, 10⟩ ⟨0, [⟨true, true, 0, 0⟩,
          ⟨true, true, 0, 1⟩]⟩).1.dec).1.ts -
      (GetFrame ⟨4294967196, 10⟩ ⟨0, [⟨true, true, 0, 0⟩,
        ⟨true, true, 0, 1⟩]⟩).1.ts) := by
  refine ⟨rfl, ?_, ?_, ?_, ?_, ?_⟩ <;>
    simp [GetFrame, GetFrameLoop, GetFrameData, retryLoop, grabRetrieve,
      sampleSkip, MAX_ATTEMPTS]

/-- C2 amended: for every enabled sampling rate, two consecutive frames
returned by `GetFrame` are spaced by at least `1000 / rate` milliseconds
provided the second frame's timestamp is positive; a decoder that emits
timestamp 0 after the first frame bypasses the gate's `timestamp_ms > 0`
conjunct and can violate the spacing. -/
theorem C2_amended_min_spacing (rd : VideoReader) (d : Decoder)
    (hr : 0 < rd.sampling_frame_rate)
    (_h1 : (GetFrame rd d).1.loaded = true)
    (h2 : (GetFrame (GetFrame rd d).2 (GetFrame rd d).1.dec).1.loaded = true)
    (hpos : 0 < (GetFrame (GetFrame rd d).2 (GetFrame rd d).1.dec).1.ts) :
    1000 / (rd.sampling_frame_rate : Int) ≤
      (GetFrame (GetFrame rd d).2 (GetFrame rd d).1.dec).1.ts -
        (GetFrame rd d).1.ts := by
  have hrate : (GetFrame rd d).2.sampling_frame_rate = rd.sampling_frame_rate :=
    rfl
  have hlast : (GetFrame rd d).2.last_timestamp_ms = (GetFrame rd d).1.ts := rfl
  have hspace := GetFrame_accepted_spacing (GetFrame rd d).2
    (GetFrame rd d).1.dec (by rw [hrate]; exact hr) h2 hpos
  rw [hrate, hlast] at hspace
  exact hspace

/-- C2 amended witness: rate 10 from the reachable reader state with
last accepted timestamp 0, accepting timestamps 120 then 220, spaced by
exactly 100 = 1000 / 10 milliseconds. -/
theorem C2_amended_witness :
    0 < (⟨0, 10⟩ : VideoReader).sampling_frame_rate ∧
    (GetFrame ⟨0, 10⟩ ⟨0, [⟨true, true, 120, 4⟩,
      ⟨true, true, 220, 5⟩]⟩).1.loaded = true ∧
    (GetFrame (GetFrame ⟨0, 10⟩ ⟨0, [⟨true, true, 120, 4⟩,
        ⟨true, true, 220, 5⟩]⟩).2
      (GetFrame ⟨0, 10⟩ ⟨0, [⟨true, true, 120, 4⟩,
        ⟨true, true, 220, 5⟩]⟩).1.dec).1.loaded = true ∧
    0 < (GetFrame (GetFrame ⟨0, 10⟩ ⟨0, [⟨true, true, 120, 4⟩,
        ⟨true, true, 220, 5⟩]⟩).2
      (GetFrame ⟨0, 10⟩ ⟨0, [⟨true, true, 120, 4⟩,
        ⟨true, true, 220, 5⟩]⟩).1.dec).1.ts ∧
    1000 / ((⟨0, 10⟩ : VideoReader).sampling_frame_rate : Int) ≤
      (GetFrame (GetFrame ⟨0, 10⟩ ⟨0, [⟨true, true, 120, 4⟩,
          ⟨true, true, 220, 5⟩]⟩).2
        (GetFrame ⟨0, 10⟩ ⟨0, [⟨true, true, 120, 4⟩,
          ⟨true, true, 220, 5⟩]⟩).1.dec).1.ts -
        (GetFrame ⟨0, 10⟩ ⟨0, [⟨true, true, 120, 4⟩,
          ⟨true, true, 220, 5⟩]⟩).1.ts := by
  have h1 : (GetFrame ⟨0, 10⟩ ⟨0, [⟨true, true, 120, 4⟩,
      ⟨true, true, 220, 5⟩]⟩).1.loaded = true := by
    simp [GetFrame, GetFrameLoop, GetFrameData, retryLoop, grabRetrieve,
      sampleSkip, MAX_ATTEMPTS]
  have h2 : (GetFrame (GetFrame ⟨0, 10⟩ ⟨0, [⟨true, true, 120, 4⟩,
      ⟨true, true, 220, 5⟩]⟩).2
      (GetFrame ⟨0, 10⟩ ⟨0, [⟨true, true, 120, 4⟩,
        ⟨true, true, 220, 5⟩]⟩).1.dec).1.loaded = true := by
    simp [GetFrame, GetFrameLoop, GetFrameData, retryLoop, grabRetrieve,
      sampleSkip, MAX_ATTEMPTS]
  have hpos : 0 < (GetFrame (GetFrame ⟨0, 10⟩ ⟨0, [⟨true, true, 120, 4⟩,
      ⟨true, true, 220, 5⟩]⟩).2
      (GetFrame ⟨0, 10⟩ ⟨0, [⟨true, true, 120, 4⟩,
        ⟨true, true, 220, 5⟩]⟩).1.dec).1.ts := by
    simp [GetFrame, GetFrameLoop, GetFrameData, retryLoop, grabRetrieve,
      sampleSkip, MAX_ATTEMPTS]
  exact ⟨by decide, h1, h2, hpos,
    C2_amended_min_spacing ⟨0, 10⟩
      ⟨0, [⟨true, true, 120, 4⟩, ⟨true, true, 220, 5⟩]⟩ (by decide) h1 h2 hpos⟩
